import Mathlib

/-!
Verification of the voice chatbot example
(`src/06_gpu_and_ml/voice_chatbot/main.py`): a shallow embedding of
`load_audio`, `Transcriber`, the `/transcribe` web endpoint and
`AlpacaLoRAModel`, with theorems about the audio decoding pipeline, the
temporary-file side effect, error propagation, device selection, the
tokenizer-config fix and the response-delimiter extraction.

Bytes are modelled as `Nat` (reduced mod 256 where a byte's value matters),
text as `List Char`, audio samples as `ℚ` (every number produced by the
code is an int16 divided by the power of two 32768, which is exact in
float32, so rational arithmetic is faithful).  The external collaborators
(the ffmpeg subprocess, the whisper model, the LLaMA generation model and
the prompt template imported from the alpaca-lora repository) are opaque
functions passed as parameters, exactly as the spec scopes them.
-/

namespace VoiceChatbot

abbrev Str := List Char

/-! ### The ffmpeg invocation built by `load_audio` (main.py lines 30-45)

`ffmpeg-python` compiles `ffmpeg.input(name, threads=0, format="f32le",
acodec="pcm_f32le", ac=1, ar="48k")` into command-line options placed
*before* `-i` (keyword arguments of `input` are input options, sorted
alphabetically by `convert_kwargs_to_cmd_line_args`, with `format` spelled
`-f`), and `.output("-", format="s16le", acodec="pcm_s16le", ac=1, ar=sr)`
into options before the output `-`.  `.run(cmd=["ffmpeg", "-nostdin"], ...)`
prepends the executable and `-nostdin`. -/

/-- The options `load_audio` places before `-i`: they declare the input to be
raw mono 48 kHz 32-bit float PCM instead of letting ffmpeg probe it. -/
def inputOptions : List String :=
  ["-ac", "1", "-acodec", "pcm_f32le", "-ar", "48k", "-f", "f32le", "-threads", "0"]

/-- The options `load_audio` places before the output `-`: mono 16-bit
signed little-endian PCM at the target sample rate, written to stdout. -/
def outputOptions (sr : Nat) : List String :=
  ["-ac", "1", "-acodec", "pcm_s16le", "-ar", toString sr, "-f", "s16le"]

/-- The full argument vector of the decoding subprocess. -/
def ffmpegCmd (filename : String) (sr : Nat) : List String :=
  ["ffmpeg", "-nostdin"] ++ inputOptions ++ ["-i", filename] ++ outputOptions sr ++ ["-"]

/-- ffmpeg auto-detects the container/codec of an input exactly when no `-f`
option stands among the input options (the options before `-i`). -/
def autoDetectsInput (cmd : List String) : Bool :=
  ! (cmd.takeWhile (fun a => a != "-i")).contains "-f"

/-- What one run of the decoding subprocess returns: exit status, captured
stdout (the PCM bytes) and captured stderr (the diagnostic text). -/
structure RunResult where
  retcode : Nat
  stdout : List Nat
  stderr : Str

/-- The decoding subprocess as an opaque environment: argument vector and
input-file contents in, a `RunResult` out. -/
def Decoder := List String → List Nat → RunResult

/-- The Python exceptions the embedded code can raise.
`runtimeError` is the `RuntimeError` of main.py line 47 (the spec's
`DecodeError`); `valueError` is what `np.frombuffer` raises on a buffer
whose size is not a multiple of 2; `indexError` is the unchecked `[1]` of
line 217.  `malformedOutputError` is the distinct condition the spec's
error taxonomy demands on the generation path; the code never raises it. -/
inductive PyError where
  | runtimeError : Str → PyError
  | valueError : PyError
  | indexError : PyError
  | malformedOutputError : PyError
deriving DecidableEq

/-- The message prefix of main.py line 47. -/
def failPrefix : Str := String.toList "Failed to load audio: "

/-- Two little-endian bytes as a signed 16-bit integer, as `np.int16`
reads them. -/
def toInt16 (lo hi : Nat) : Int :=
  let u := lo % 256 + 256 * (hi % 256)
  if u < 32768 then (u : Int) else (u : Int) - 65536

/-- `np.frombuffer(out, np.int16)` on an even-length byte string. -/
def pairsToInts : List Nat → List Int
  | lo :: hi :: rest => toInt16 lo hi :: pairsToInts rest
  | _ => []

/-- Line 49: `np.frombuffer(out, np.int16).flatten().astype(np.float32) / 32768.0`.
`np.frombuffer` raises `ValueError` when the buffer length is odd. -/
def bytesToSamples (out : List Nat) : Except PyError (List ℚ) :=
  if out.length % 2 = 0 then
    .ok ((pairsToInts out).map fun v : ℤ => (v : ℚ) / 32768)
  else .error .valueError

/-- `load_audio` (main.py lines 20-49).  `tmpName` is the name the
`NamedTemporaryFile` got.  The second component is the set of temporary
files existing after the call returns: the file is created with
`delete=False`, written, closed, and no path of the function removes it. -/
def load_audio (dec : Decoder) (tmpName : String) (data : List Nat) (sr : Nat) :
    Except PyError (List ℚ) × List (String × List Nat) :=
  let fs := [(tmpName, data)]
  let r := dec (ffmpegCmd tmpName sr) data
  if r.retcode = 0 then (bytesToSamples r.stdout, fs)
  else (.error (.runtimeError (failPrefix ++ r.stderr)), fs)

/-! ### Transcriber (main.py lines 52-73) and the web endpoint (99-113) -/

/-- What `model.transcribe` returns: a dict with a `text` field and
segment/language metadata. -/
structure TranscriptionResult where
  text : Str
  segments : List Str
  language : Str
deriving DecidableEq

/-- The whisper model as an opaque function of the sample buffer, the
`language` argument and the `fp16` flag. -/
def WhisperModel := List ℚ → Str → Bool → TranscriptionResult

/-- The state `Transcriber.__enter__` leaves behind: the `use_gpu` flag and
the device string the model was loaded on. -/
structure TranscriberState where
  use_gpu : Bool
  device : String

/-- `Transcriber.__enter__` (lines 53-59): `use_gpu = torch.cuda.is_available()`,
`device = "cuda" if use_gpu else "cpu"`, model loaded once on that device. -/
def Transcriber.enter (cudaAvailable : Bool) : TranscriberState :=
  let use_gpu := cudaAvailable
  { use_gpu := use_gpu, device := if use_gpu then "cuda" else "cpu" }

/-- The `language="en"` argument of line 70. -/
def langEn : Str := String.toList "en"

/-- `Transcriber.transcribe_segment` (lines 64-73): decode via `load_audio`
at the default rate 16000, then `self.model.transcribe(np_array,
language="en", fp16=self.use_gpu)`.  An exception from `load_audio`
propagates before the model is reached. -/
def transcribe_segment (st : TranscriberState) (model : WhisperModel)
    (dec : Decoder) (tmpName : String) (audio_data : List Nat) :
    Except PyError TranscriptionResult :=
  match (load_audio dec tmpName audio_data 16000).1 with
  | .error e => .error e
  | .ok samples => .ok (model samples langEn st.use_gpu)

/-- The `POST /transcribe` handler (lines 106-110): forward the raw body to
`transcribe_segment` and return `result["text"]`. -/
def webTranscribe (st : TranscriberState) (model : WhisperModel)
    (dec : Decoder) (tmpName : String) (body : List Nat) : Except PyError Str :=
  (transcribe_segment st model dec tmpName body).map TranscriptionResult.text

/-! ### AlpacaLoRAModel (main.py lines 151-217) -/

/-- The special-token ids of `model.config`. -/
structure LMConfig where
  pad_token_id : Int
  bos_token_id : Int
  eos_token_id : Int
deriving DecidableEq

/-- The state `AlpacaLoRAModel.__enter__` leaves behind. -/
structure AlpacaState where
  tokenizerPadTokenId : Int
  config : LMConfig

/-- `AlpacaLoRAModel.__enter__` (lines 152-179): whatever special-token ids
the loaded checkpoint carried, lines 174-176 overwrite them:
`model.config.pad_token_id = self.tokenizer.pad_token_id = 0`,
`model.config.bos_token_id = 1`, `model.config.eos_token_id = 2`. -/
def AlpacaLoRAModel.enter (loadedTokenizerPad : Int) (loadedConfig : LMConfig) :
    AlpacaState :=
  let st : AlpacaState :=
    { tokenizerPadTokenId := loadedTokenizerPad, config := loadedConfig }
  let st := { st with tokenizerPadTokenId := 0,
                      config := { st.config with pad_token_id := 0 } }
  let st := { st with config := { st.config with bos_token_id := 1 } }
  let st := { st with config := { st.config with eos_token_id := 2 } }
  st

/-- The sampling configuration of `generate` (lines 184-190). -/
structure GenConfig where
  temperature : ℚ
  top_p : ℚ
  top_k : Nat
  num_beams : Nat
  max_new_tokens : Nat

/-- `generate_prompt`, imported from the alpaca-lora repository: an opaque
deterministic template of (instruction, input). -/
def PromptFn := Str → Option Str → Str

/-- Tokenizer, `model.generate` and `tokenizer.decode` collapsed into one
opaque function of the model config, the prompt and the sampling
configuration, returning the decoded output text. -/
def LM := LMConfig → Str → GenConfig → Str

/-- The fixed response delimiter of line 217. -/
def responseMarker : Str := String.toList "### Response:"

/-- Python whitespace (`str.strip` default, ASCII range): space, tab,
newline, carriage return, vertical tab, form feed. -/
def isPySpace (c : Char) : Bool :=
  c == ' ' || c == '\t' || c == '\n' || c == '\r' ||
    c == Char.ofNat 11 || c == Char.ofNat 12

/-- Python `str.strip()`: drop leading and trailing whitespace. -/
def pyStrip (s : Str) : Str :=
  ((s.dropWhile isPySpace).reverse.dropWhile isPySpace).reverse

/-- The index of the first occurrence of `sep` in `s`, if any: the scan
Python `str.split` performs. -/
def findSub (sep : Str) : Str → Option Nat
  | [] => if sep.isPrefixOf ([] : Str) then some 0 else none
  | c :: rest =>
    if sep.isPrefixOf (c :: rest) then some 0
    else (findSub sep rest).map (· + 1)

/-- Python `s.split(sep)` for non-empty `sep`, fuelled so that it computes
by structural recursion; `s.length` fuel always suffices (each found
occurrence consumes at least one character). -/
def pySplitF (sep : Str) : Nat → Str → List Str
  | 0, s => [s]
  | fuel + 1, s =>
    match findSub sep s with
    | none => [s]
    | some i => s.take i :: pySplitF sep fuel (s.drop (i + sep.length))

/-- Python `s.split(sep)` for non-empty `sep`. -/
def pySplit (sep s : Str) : List Str := pySplitF sep s.length s

/-- The chunk `s.split(sep)` starts with: `s` up to the first occurrence of
`sep`, or all of `s` when there is none. -/
def nextChunk (sep t : Str) : Str :=
  match findSub sep t with
  | none => t
  | some j => t.take j

/-- Line 217: `output.split("### Response:")[1].strip()`.  The index `[1]`
raises `IndexError` when the split produced fewer than two parts, i.e. when
the marker does not occur in `output`. -/
def extractResponse (output : Str) : Except PyError Str :=
  match pySplit responseMarker output with
  | _ :: second :: _ => .ok (pyStrip second)
  | _ => .error .indexError

/-- `AlpacaLoRAModel.generate` (lines 182-217): build the prompt, run the
model once, decode, and extract the text after the response delimiter. -/
def generate (st : AlpacaState) (pf : PromptFn) (lm : LM)
    (instruction : Str) (input : Option Str) (cfg : GenConfig) :
    Except PyError Str :=
  extractResponse (lm st.config (pf instruction input) cfg)

/-! ### Concrete stubs used by witnesses -/

/-- A decoder run that fails with exit status 1 and a diagnostic on stderr,
as ffmpeg does on undecodable input (for instance an empty blob). -/
def failingDec : Decoder := fun _ _ => ⟨1, [], String.toList "pipe:: Invalid data"⟩

/-- A successful decoder run whose stdout is empty. -/
def emptyOkDec : Decoder := fun _ _ => ⟨0, [], []⟩

/-- A successful decoder run whose stdout holds the two extreme int16
samples -32768 and 32767, little-endian. -/
def sampleOkDec : Decoder := fun _ _ => ⟨0, [0, 128, 255, 127], []⟩

/-- A whisper stub returning transcript "hello" with empty metadata. -/
def whisperStub : WhisperModel := fun _ _ _ => ⟨String.toList "hello", [], langEn⟩

/-- A whisper stub returning the same transcript "hello" with different
segment/language metadata. -/
def whisperStub2 : WhisperModel :=
  fun _ _ _ => ⟨String.toList "hello", [String.toList "seg0"], []⟩

/-- A decoded generation output without the response delimiter. -/
def noMarkerOutput : Str := String.toList "Below is an instruction."

/-- A decoded generation output with one response delimiter. -/
def oneMarkerOutput : Str := String.toList "A### Response: green and blue "

/-- A decoded generation output with two response delimiters. -/
def twoMarkerOutput : Str := String.toList "A### Response: one ### Response: two"

/-- A generation model stub whose decoded output is fixed. -/
def constLM (out : Str) : LM := fun _ _ _ => out

/-- A prompt-template stub. -/
def pfStub : PromptFn := fun instr _ => instr

/-- The default sampling configuration of `generate` (lines 187-190):
temperature 0.1, top_p 0.75, top_k 40, 4 beams, 128 new tokens. -/
def defaultGenConfig : GenConfig := ⟨1 / 10, 3 / 4, 40, 4, 128⟩

/-- The generation state after `__enter__` ran on a checkpoint that already
carried the fixed ids. -/
def alpacaStub : AlpacaState := AlpacaLoRAModel.enter 0 ⟨0, 1, 2⟩

deriving instance DecidableEq for Except

/-! ### Helper lemmas -/

theorem toInt16_bounds (lo hi : Nat) : -32768 ≤ toInt16 lo hi ∧ toInt16 lo hi ≤ 32767 := by
  have h1 : lo % 256 < 256 := Nat.mod_lt _ (by norm_num)
  have h2 : hi % 256 < 256 := Nat.mod_lt _ (by norm_num)
  simp only [toInt16]
  by_cases h : lo % 256 + 256 * (hi % 256) < 32768
  · rw [if_pos h]
    omega
  · rw [if_neg h]
    omega

theorem pairsToInts_bounds (out : List Nat) :
    ∀ v ∈ pairsToInts out, -32768 ≤ v ∧ v ≤ 32767 := by
  induction out using pairsToInts.induct with
  | case1 lo hi rest ih =>
    intro v hv
    simp only [pairsToInts, List.mem_cons] at hv
    rcases hv with h | h
    · exact h ▸ toInt16_bounds lo hi
    · exact ih v h
  | case2 s h =>
    intro v hv
    simp [pairsToInts] at hv

theorem load_audio_fs (dec : Decoder) (tmpName : String) (data : List Nat) (sr : Nat) :
    (load_audio dec tmpName data sr).2 = [(tmpName, data)] := by
  simp only [load_audio]
  split <;> rfl

theorem load_audio_of_fail (dec : Decoder) (tmpName : String) (data : List Nat) (sr : Nat)
    (hfail : (dec (ffmpegCmd tmpName sr) data).retcode ≠ 0) :
    (load_audio dec tmpName data sr).1 =
      .error (.runtimeError (failPrefix ++ (dec (ffmpegCmd tmpName sr) data).stderr)) := by
  simp only [load_audio]
  rw [if_neg hfail]

theorem load_audio_ok_shape (dec : Decoder) (tmpName : String) (data : List Nat) (sr : Nat)
    (samples : List ℚ) (hok : (load_audio dec tmpName data sr).1 = .ok samples) :
    samples = (pairsToInts (dec (ffmpegCmd tmpName sr) data).stdout).map
      (fun v : ℤ => (v : ℚ) / 32768) := by
  simp only [load_audio, bytesToSamples] at hok
  by_cases h1 : (dec (ffmpegCmd tmpName sr) data).retcode = 0
  · rw [if_pos h1] at hok
    by_cases h2 : (dec (ffmpegCmd tmpName sr) data).stdout.length % 2 = 0
    · rw [if_pos h2] at hok
      exact (Except.ok.inj hok).symm
    · rw [if_neg h2] at hok
      exact absurd hok (by simp)
  · rw [if_neg h1] at hok
    exact absurd hok (by simp)

/-! ### Claims about the transcription path -/

/-- C2: the claim says the temporary file is deleted on every exit path of
`load_audio`.  The code creates it with `delete=False` and no statement of
the function removes it: after the call — here concretely the
decode-failure path on the empty blob, and in the last conjunct every path —
the file still exists.  The claim describes the evident intent (a scoped
temporary for the duration of the decode); the code is missing the cleanup. -/
theorem C2_temp_file_persists :
    (load_audio failingDec "tmp0000.wav" [] 16000).1 =
      .error (.runtimeError (failPrefix ++ String.toList "pipe:: Invalid data")) ∧
    (load_audio failingDec "tmp0000.wav" [] 16000).2 = [("tmp0000.wav", [])] ∧
    ∀ (dec : Decoder) (tmpName : String) (data : List Nat) (sr : Nat),
      (load_audio dec tmpName data sr).2 = [(tmpName, data)] :=
  ⟨rfl, rfl, load_audio_fs⟩

/-- C3: when the decoding subprocess exits nonzero, `transcribe_segment`
raises the `RuntimeError` of line 47 carrying the decoder's stderr (the
spec's `DecodeError`), returns no sample buffer, and the speech model is
never invoked: the outcome does not depend on the model (nor on the
transcriber state), as the second conjunct states by varying both. -/
theorem C3_decode_failure_skips_model (st st' : TranscriberState)
    (m m' : WhisperModel) (dec : Decoder) (tmpName : String) (data : List Nat)
    (hfail : (dec (ffmpegCmd tmpName 16000) data).retcode ≠ 0) :
    transcribe_segment st m dec tmpName data =
      .error (.runtimeError (failPrefix ++ (dec (ffmpegCmd tmpName 16000) data).stderr)) ∧
    transcribe_segment st m dec tmpName data = transcribe_segment st' m' dec tmpName data := by
  have h := load_audio_of_fail dec tmpName data 16000 hfail
  constructor
  · unfold transcribe_segment
    rw [h]
  · unfold transcribe_segment
    rw [h]

/-- C3 witness: the failing decoder at the empty blob, two different models
and transcriber states. -/
theorem C3_witness :
    transcribe_segment (Transcriber.enter true) whisperStub failingDec "t.wav" [] =
      .error (.runtimeError (failPrefix ++ String.toList "pipe:: Invalid data")) ∧
    transcribe_segment (Transcriber.enter true) whisperStub failingDec "t.wav" [] =
      transcribe_segment (Transcriber.enter false) whisperStub2 failingDec "t.wav" [] :=
  C3_decode_failure_skips_model (Transcriber.enter true) (Transcriber.enter false)
    whisperStub whisperStub2 failingDec "t.wav" [] (by decide)

/-- C6: after `AlpacaLoRAModel.__enter__`, whatever special-token ids the
loaded checkpoint carried, the config holds pad=0, bos=1, eos=2 and the
tokenizer pad id is 0; and every later `generate` call runs the model under
exactly that config. -/
theorem C6_token_ids_normalized (loadedPad : Int) (loadedCfg : LMConfig)
    (pf : PromptFn) (lm : LM) (instr : Str) (inp : Option Str) (cfg : GenConfig) :
    (AlpacaLoRAModel.enter loadedPad loadedCfg).config =
      { pad_token_id := 0, bos_token_id := 1, eos_token_id := 2 } ∧
    (AlpacaLoRAModel.enter loadedPad loadedCfg).tokenizerPadTokenId = 0 ∧
    generate (AlpacaLoRAModel.enter loadedPad loadedCfg) pf lm instr inp cfg =
      extractResponse
        (lm { pad_token_id := 0, bos_token_id := 1, eos_token_id := 2 } (pf instr inp) cfg) :=
  ⟨rfl, rfl, rfl⟩

/-- C7: `Transcriber.__enter__` picks the device once — "cuda" exactly when
CUDA is available, "cpu" otherwise — and every `transcribe_segment` call
passes `fp16 = use_gpu`, i.e. half precision exactly when the chosen device
is the GPU. -/
theorem C7_device_choice (cuda : Bool) (m : WhisperModel) (dec : Decoder)
    (tmpName : String) (data : List Nat) (samples : List ℚ)
    (hok : (load_audio dec tmpName data 16000).1 = .ok samples) :
    ((Transcriber.enter cuda).device = "cuda" ↔ cuda = true) ∧
    ((Transcriber.enter cuda).device = "cpu" ↔ cuda = false) ∧
    (Transcriber.enter cuda).use_gpu = cuda ∧
    transcribe_segment (Transcriber.enter cuda) m dec tmpName data =
      .ok (m samples langEn cuda) := by
  refine ⟨?_, ?_, rfl, ?_⟩
  · cases cuda <;> simp [Transcriber.enter]
  · cases cuda <;> simp [Transcriber.enter]
  · unfold transcribe_segment
    rw [hok]
    rfl

/-- C7 witness: GPU available, a decode that succeeds with an empty buffer. -/
theorem C7_witness :
    transcribe_segment (Transcriber.enter true) whisperStub emptyOkDec "t.wav" [] =
      .ok (whisperStub [] langEn true) :=
  (C7_device_choice true whisperStub emptyOkDec "t.wav" [] [] rfl).2.2.2

/-- C8: every sample of a successful decode is an int16 value divided by
32768, hence lies in [-1, 1). -/
theorem C8_amplitude_invariant (dec : Decoder) (tmpName : String) (data : List Nat)
    (sr : Nat) (samples : List ℚ)
    (hok : (load_audio dec tmpName data sr).1 = .ok samples) :
    samples = (pairsToInts (dec (ffmpegCmd tmpName sr) data).stdout).map
      (fun v : ℤ => (v : ℚ) / 32768) ∧
    ∀ x ∈ samples, -1 ≤ x ∧ x < 1 := by
  have hs := load_audio_ok_shape dec tmpName data sr samples hok
  refine ⟨hs, ?_⟩
  intro x hx
  rw [hs] at hx
  obtain ⟨v, hv, rfl⟩ := List.mem_map.mp hx
  obtain ⟨hlo, hhi⟩ := pairsToInts_bounds _ v hv
  constructor
  · rw [le_div_iff₀ (by norm_num : (0 : ℚ) < 32768)]
    have : (-32768 : ℚ) ≤ (v : ℚ) := by exact_mod_cast hlo
    linarith
  · rw [div_lt_one (by norm_num : (0 : ℚ) < 32768)]
    have : v < 32768 := by omega
    exact_mod_cast this

/-- C8 witness: the decode producing the extreme samples -32768 and 32767;
the first maps to -1 (included), the second to 32767/32768 < 1. -/
theorem C8_witness :
    (load_audio sampleOkDec "t.wav" [] 16000).1 =
      .ok ((pairsToInts [0, 128, 255, 127]).map fun v : ℤ => (v : ℚ) / 32768) ∧
    -1 ≤ ((-32768 : ℤ) : ℚ) / 32768 ∧ ((-32768 : ℤ) : ℚ) / 32768 < 1 := by
  have h := C8_amplitude_invariant sampleOkDec "t.wav" [] 16000
    ((pairsToInts [0, 128, 255, 127]).map fun v : ℤ => (v : ℚ) / 32768) rfl
  have hv : (-32768 : ℤ) ∈ pairsToInts [0, 128, 255, 127] := by decide
  exact ⟨rfl, h.2 _ (List.mem_map_of_mem _ hv)⟩

/-- C9: on success the `/transcribe` response body is exactly the `text`
field of the result `transcribe_segment` produced for the request body, and
nothing else of the result is exposed: a model whose results agree on
`text` but differ in metadata yields the same response. -/
theorem C9_web_returns_text_field (st : TranscriberState) (m m' : WhisperModel)
    (dec : Decoder) (tmpName : String) (body : List Nat) (r : TranscriptionResult)
    (hok : transcribe_segment st m dec tmpName body = .ok r)
    (htext : ∀ s l f, (m' s l f).text = (m s l f).text) :
    webTranscribe st m dec tmpName body = .ok r.text ∧
    webTranscribe st m' dec tmpName body = .ok r.text := by
  constructor
  · unfold webTranscribe
    rw [hok]
    rfl
  · unfold webTranscribe transcribe_segment
    unfold transcribe_segment at hok
    cases hla : (load_audio dec tmpName body 16000).1 with
    | error e =>
      rw [hla] at hok
      simp at hok
    | ok samples =>
      rw [hla] at hok
      simp only [Except.map]
      have := htext samples langEn st.use_gpu
      simp only [Except.ok.injEq] at hok
      rw [this, hok]

/-- C9 witness: two whisper stubs with equal transcript "hello" but
different metadata produce the same response body "hello". -/
theorem C9_witness :
    webTranscribe (Transcriber.enter true) whisperStub emptyOkDec "t.wav" [] =
      .ok (String.toList "hello") ∧
    webTranscribe (Transcriber.enter true) whisperStub2 emptyOkDec "t.wav" [] =
      .ok (String.toList "hello") :=
  C9_web_returns_text_field (Transcriber.enter true) whisperStub whisperStub2
    emptyOkDec "t.wav" [] ⟨String.toList "hello", [], langEn⟩ rfl (fun _ _ _ => rfl)

/-! ### Properties of `findSub`, `pySplit`, `pyStrip` -/

theorem findSub_nil (sep : Str) (hsep : sep ≠ []) : findSub sep [] = none := by
  cases sep with
  | nil => exact absurd rfl hsep
  | cons c t => rfl

theorem sep_length_pos (sep : Str) (hsep : sep ≠ []) : 1 ≤ sep.length := by
  cases sep with
  | nil => exact absurd rfl hsep
  | cons c t => simp

theorem findSub_eq_none_iff (sep s : Str) : findSub sep s = none ↔ ¬ sep <:+: s := by
  induction s with
  | nil =>
    by_cases h : sep = []
    · subst h
      simp [findSub]
    · have hp : sep.isPrefixOf ([] : Str) = false := by
        cases sep with
        | nil => exact absurd rfl h
        | cons c t => rfl
      simp [findSub, hp, h]
  | cons c rest ih =>
    simp only [findSub]
    split
    case isTrue hp =>
      rw [List.isPrefixOf_iff_prefix] at hp
      simp [List.infix_cons_iff, hp]
    case isFalse hp =>
      have hp' : ¬ sep <+: (c :: rest) := by
        simpa [List.isPrefixOf_iff_prefix] using hp
      simp [Option.map_eq_none', ih, List.infix_cons_iff, hp']

theorem findSub_some_spec (sep s : Str) (i : Nat) (h : findSub sep s = some i) :
    sep <+: s.drop i ∧ ∀ k, k < i → ¬ sep <+: s.drop k := by
  induction s generalizing i with
  | nil =>
    simp only [findSub] at h
    split at h
    case isTrue hp =>
      obtain rfl : 0 = i := Option.some.inj h
      refine ⟨?_, ?_⟩
      · rw [List.isPrefixOf_iff_prefix] at hp
        simpa using hp
      · intro k hk
        omega
    case isFalse hp =>
      cases h
  | cons c rest ih =>
    simp only [findSub] at h
    split at h
    case isTrue hp =>
      obtain rfl : 0 = i := Option.some.inj h
      refine ⟨?_, ?_⟩
      · rw [List.isPrefixOf_iff_prefix] at hp
        simpa using hp
      · intro k hk
        omega
    case isFalse hp =>
      rw [Option.map_eq_some'] at h
      obtain ⟨i', hi', rfl⟩ := h
      obtain ⟨h1, h2⟩ := ih i' hi'
      refine ⟨by simpa using h1, ?_⟩
      intro k hk
      cases k with
      | zero =>
        intro hpre
        have hp' : ¬ sep <+: (c :: rest) := by
          simpa [List.isPrefixOf_iff_prefix] using hp
        exact hp' (by simpa using hpre)
      | succ k' =>
        have := h2 k' (by omega)
        simpa using this

theorem findSub_eq_some_of_spec (sep s : Str) (i : Nat)
    (h1 : sep <+: s.drop i) (h2 : ∀ k, k < i → ¬ sep <+: s.drop k) :
    findSub sep s = some i := by
  induction s generalizing i with
  | nil =>
    have hsep : sep = [] := List.prefix_nil.mp (by simpa using h1)
    subst hsep
    have hi : i = 0 := by
      by_contra hne
      exact h2 0 (by omega) (by simp)
    subst hi
    rfl
  | cons c rest ih =>
    simp only [findSub]
    split
    case isTrue hp =>
      rw [List.isPrefixOf_iff_prefix] at hp
      have hi : i = 0 := by
        by_contra hne
        exact h2 0 (by omega) (by simpa using hp)
      subst hi
      rfl
    case isFalse hp =>
      have hp' : ¬ sep <+: (c :: rest) := by
        simpa [List.isPrefixOf_iff_prefix] using hp
      cases i with
      | zero => exact absurd (by simpa using h1) hp'
      | succ i' =>
        have e : findSub sep rest = some i' := by
          refine ih i' (by simpa using h1) ?_
          intro k hk
          have := h2 (k + 1) (by omega)
          simpa using this
        rw [e]
        rfl

theorem pySplitF_congr (sep : Str) (hsep : sep ≠ []) :
    ∀ f1 f2 s, s.length ≤ f1 → s.length ≤ f2 → pySplitF sep f1 s = pySplitF sep f2 s := by
  intro f1
  induction f1 with
  | zero =>
    intro f2 s h1 h2
    have hnil : s = [] := List.eq_nil_of_length_eq_zero (by omega)
    subst hnil
    cases f2 with
    | zero => rfl
    | succ g2 =>
      simp only [pySplitF]
      rw [findSub_nil sep hsep]
  | succ g1 ih =>
    intro f2 s h1 h2
    cases f2 with
    | zero =>
      have hnil : s = [] := List.eq_nil_of_length_eq_zero (by omega)
      subst hnil
      simp only [pySplitF]
      rw [findSub_nil sep hsep]
    | succ g2 =>
      simp only [pySplitF]
      cases hf : findSub sep s with
      | none => rfl
      | some i =>
        have hS : s ≠ [] := by
          intro hnil
          subst hnil
          rw [findSub_nil sep hsep] at hf
          cases hf
        have hS1 : 1 ≤ s.length := by
          cases s with
          | nil => exact absurd rfl hS
          | cons a t => simp
        have hL := sep_length_pos sep hsep
        have hlen1 : (s.drop (i + sep.length)).length ≤ g1 := by
          rw [List.length_drop]
          omega
        have hlen2 : (s.drop (i + sep.length)).length ≤ g2 := by
          rw [List.length_drop]
          omega
        dsimp only
        rw [ih g2 (s.drop (i + sep.length)) hlen1 hlen2]

theorem pySplit_of_none (sep s : Str) (h : findSub sep s = none) : pySplit sep s = [s] := by
  unfold pySplit
  cases hl : s.length with
  | zero => rfl
  | succ n =>
    simp only [pySplitF]
    rw [h]

theorem pySplit_of_some (sep s : Str) (hsep : sep ≠ []) (i : Nat)
    (h : findSub sep s = some i) :
    pySplit sep s = s.take i :: pySplit sep (s.drop (i + sep.length)) := by
  have hS : s ≠ [] := by
    intro hnil
    subst hnil
    rw [findSub_nil sep hsep] at h
    cases h
  obtain ⟨n, hn⟩ : ∃ n, s.length = n + 1 := by
    cases s with
    | nil => exact absurd rfl hS
    | cons a t => exact ⟨t.length, rfl⟩
  have hL := sep_length_pos sep hsep
  unfold pySplit
  rw [hn]
  simp only [pySplitF]
  rw [h]
  dsimp only
  rw [pySplitF_congr sep hsep n (s.drop (i + sep.length)).length (s.drop (i + sep.length))
    (by rw [List.length_drop]; omega) (le_refl _)]

theorem pySplitF_ne_nil (sep : Str) (fuel : Nat) (s : Str) : pySplitF sep fuel s ≠ [] := by
  cases fuel with
  | zero => simp [pySplitF]
  | succ g =>
    simp only [pySplitF]
    cases hf : findSub sep s <;> simp

theorem pySplit_head (sep s : Str) (hsep : sep ≠ []) :
    ∃ rest, pySplit sep s = nextChunk sep s :: rest := by
  cases hf : findSub sep s with
  | none =>
    refine ⟨[], ?_⟩
    rw [pySplit_of_none sep s hf]
    simp [nextChunk, hf]
  | some i =>
    refine ⟨pySplit sep (s.drop (i + sep.length)), ?_⟩
    rw [pySplit_of_some sep s hsep i hf]
    simp [nextChunk, hf]

theorem responseMarker_ne_nil : responseMarker ≠ [] := by decide

theorem extractResponse_of_none (output : Str) (h : findSub responseMarker output = none) :
    extractResponse output = .error .indexError := by
  unfold extractResponse
  rw [pySplit_of_none responseMarker output h]

theorem extractResponse_of_some (output : Str) (i : Nat)
    (h : findSub responseMarker output = some i) :
    extractResponse output =
      .ok (pyStrip (nextChunk responseMarker (output.drop (i + responseMarker.length)))) := by
  unfold extractResponse
  rw [pySplit_of_some responseMarker output responseMarker_ne_nil i h]
  obtain ⟨rest, hr⟩ :=
    pySplit_head responseMarker (output.drop (i + responseMarker.length)) responseMarker_ne_nil
  rw [hr]

theorem nextChunk_isInfix (sep t : Str) : nextChunk sep t <:+: t := by
  cases hf : findSub sep t with
  | none =>
    simp only [nextChunk]
    rw [hf]
  | some j =>
    simp only [nextChunk]
    rw [hf]
    exact (List.take_prefix j t).isInfix

theorem infix_take_occurrence (sep t : Str) (j : Nat) (hL : 1 ≤ sep.length)
    (h : sep <:+: t.take j) : ∃ k, k < j ∧ sep <+: t.drop k := by
  obtain ⟨u, hpre, hsuf⟩ := List.infix_iff_prefix_suffix.mp h
  have hul : u.length ≤ (t.take j).length := hsuf.length_le
  have hsl : sep.length ≤ u.length := hpre.length_le
  have htl : (t.take j).length ≤ j := by
    rw [List.length_take]
    omega
  rw [List.suffix_iff_eq_drop] at hsuf
  have hp2 : sep <+: (t.take j).drop ((t.take j).length - u.length) := hsuf ▸ hpre
  rw [List.drop_take] at hp2
  exact ⟨(t.take j).length - u.length, by omega, hp2.trans (List.take_prefix _ _)⟩

theorem nextChunk_not_contains (sep t : Str) (hsep : sep ≠ []) :
    ¬ sep <:+: nextChunk sep t := by
  have hL := sep_length_pos sep hsep
  cases hf : findSub sep t with
  | none =>
    simp only [nextChunk]
    rw [hf]
    exact (findSub_eq_none_iff sep t).mp hf
  | some j =>
    simp only [nextChunk]
    rw [hf]
    intro hinf
    obtain ⟨k, hk, hpre⟩ := infix_take_occurrence sep t j hL hinf
    exact (findSub_some_spec sep t j hf).2 k hk hpre

theorem pyStrip_isInfix (s : Str) : pyStrip s <:+: s := by
  have h1 : ((s.dropWhile isPySpace).reverse.dropWhile isPySpace).reverse <+:
      ((s.dropWhile isPySpace).reverse).reverse :=
    List.reverse_prefix.mpr (List.dropWhile_suffix isPySpace)
  rw [List.reverse_reverse] at h1
  exact List.infix_iff_prefix_suffix.mpr ⟨s.dropWhile isPySpace, h1, List.dropWhile_suffix isPySpace⟩

/-! ### Claims about the decode pipeline shape and the generation path -/

/-- C1 counterexample: the claim says the container and codec of the input
blob are auto-detected and the audio is resampled through an intermediate
48 kHz float stage.  The compiled ffmpeg invocation shows otherwise: `-f
f32le -acodec pcm_f32le -ac 1 -ar 48k` stand among the *input* options,
before `-i`, so ffmpeg is told the input already is raw mono 48 kHz 32-bit
float PCM — nothing is probed and there is no intermediate resample of a
decoded container. -/
theorem C1_counterexample :
    autoDetectsInput (ffmpegCmd "audio.wav" 16000) = false ∧
    ffmpegCmd "audio.wav" 16000 =
      ["ffmpeg", "-nostdin", "-ac", "1", "-acodec", "pcm_f32le", "-ar", "48k",
       "-f", "f32le", "-threads", "0", "-i", "audio.wav",
       "-ac", "1", "-acodec", "pcm_s16le", "-ar", "16000", "-f", "s16le", "-"] := by
  refine ⟨rfl, rfl⟩

/-- C1 (amended): `decode` writes the blob to a temporary file and invokes
ffmpeg with input options that declare the file to be raw mono 48 kHz
32-bit float PCM (no auto-detection), and output options producing mono
16-bit signed little-endian PCM at the target rate (default 16000) on
stdout; the stdout bytes are read as int16 and each divided by 32768.0. -/
theorem C1_amended_pipeline (dec : Decoder) (tmpName : String) (data : List Nat) (sr : Nat)
    (hret : (dec (ffmpegCmd tmpName sr) data).retcode = 0)
    (heven : (dec (ffmpegCmd tmpName sr) data).stdout.length % 2 = 0) :
    ffmpegCmd tmpName sr =
      ["ffmpeg", "-nostdin", "-ac", "1", "-acodec", "pcm_f32le", "-ar", "48k",
       "-f", "f32le", "-threads", "0", "-i", tmpName,
       "-ac", "1", "-acodec", "pcm_s16le", "-ar", toString sr, "-f", "s16le", "-"] ∧
    (load_audio dec tmpName data sr).1 =
      .ok ((pairsToInts (dec (ffmpegCmd tmpName sr) data).stdout).map
        fun v : ℤ => (v : ℚ) / 32768) := by
  constructor
  · rfl
  · simp only [load_audio, bytesToSamples]
    rw [if_pos hret, if_pos heven]

/-- C1 witness: a decoder run that succeeds with the two extreme int16
samples on stdout. -/
theorem C1_witness :
    (load_audio sampleOkDec "audio.wav" [] 16000).1 =
      .ok ((pairsToInts [0, 128, 255, 127]).map fun v : ℤ => (v : ℚ) / 32768) :=
  (C1_amended_pipeline sampleOkDec "audio.wav" [] 16000 rfl rfl).2

/-- C4 counterexample: on a decoded output without the response delimiter
the extraction of `generate` fails with `IndexError` (the unchecked `[1]`
of line 217), which is not the distinct `MalformedOutputError` the claim
demands. -/
theorem C4_counterexample :
    extractResponse noMarkerOutput = .error .indexError ∧
    extractResponse noMarkerOutput ≠ .error .malformedOutputError ∧
    PyError.indexError ≠ PyError.malformedOutputError := by
  refine ⟨by decide, by decide, by decide⟩

/-- C4 (amended): whenever the response delimiter is absent from the
decoded output, `generate` fails with the unhandled `IndexError` of the
unchecked `[1]` indexing, not with a `MalformedOutputError`. -/
theorem C4_amended_index_error (st : AlpacaState) (pf : PromptFn) (lm : LM)
    (instr : Str) (inp : Option Str) (cfg : GenConfig)
    (hno : ¬ responseMarker <:+: lm st.config (pf instr inp) cfg) :
    generate st pf lm instr inp cfg = .error .indexError := by
  unfold generate
  exact extractResponse_of_none _ ((findSub_eq_none_iff _ _).mpr hno)

/-- C4 witness: a model whose decoded output has no delimiter. -/
theorem C4_witness :
    generate alpacaStub pfStub (constLM noMarkerOutput)
      (String.toList "List two colors.") none defaultGenConfig = .error .indexError :=
  C4_amended_index_error alpacaStub pfStub (constLM noMarkerOutput)
    (String.toList "List two colors.") none defaultGenConfig (by decide)

/-- C5: when the decoded output contains the response delimiter, `generate`
succeeds and returns exactly the trimmed chunk following the first
delimiter (`i` is its first-occurrence index): a string that lies within
the text after the delimiter and never itself contains the delimiter. -/
theorem C5_response_extraction (output : Str) (hc : responseMarker <:+: output) :
    ∃ s i, extractResponse output = .ok s ∧
      responseMarker <+: output.drop i ∧
      (∀ k, k < i → ¬ responseMarker <+: output.drop k) ∧
      s = pyStrip (nextChunk responseMarker (output.drop (i + responseMarker.length))) ∧
      s <:+: output.drop (i + responseMarker.length) ∧
      ¬ responseMarker <:+: s ∧
      ∀ (st : AlpacaState) (pf : PromptFn) (lm : LM) (instr : Str) (inp : Option Str)
        (cfg : GenConfig), lm st.config (pf instr inp) cfg = output →
        generate st pf lm instr inp cfg = .ok s := by
  cases hf : findSub responseMarker output with
  | none => exact absurd hc ((findSub_eq_none_iff _ _).mp hf)
  | some i =>
    obtain ⟨h1, h2⟩ := findSub_some_spec _ _ i hf
    refine ⟨pyStrip (nextChunk responseMarker (output.drop (i + responseMarker.length))), i,
      extractResponse_of_some output i hf, h1, h2, rfl, ?_, ?_, ?_⟩
    · exact (pyStrip_isInfix _).trans (nextChunk_isInfix _ _)
    · intro hcontra
      exact nextChunk_not_contains responseMarker _ responseMarker_ne_nil
        (hcontra.trans (pyStrip_isInfix _))
    · intro st pf lm instr inp cfg hlm
      unfold generate
      rw [hlm]
      exact extractResponse_of_some output i hf

/-- C5 witness: the single-delimiter output, delimiter at index 1;
the response is the trimmed suffix and holds no delimiter. -/
theorem C5_witness :
    ∃ s i, extractResponse oneMarkerOutput = .ok s ∧
      responseMarker <+: oneMarkerOutput.drop i ∧
      (∀ k, k < i → ¬ responseMarker <+: oneMarkerOutput.drop k) ∧
      s = pyStrip (nextChunk responseMarker (oneMarkerOutput.drop (i + responseMarker.length))) ∧
      s <:+: oneMarkerOutput.drop (i + responseMarker.length) ∧
      ¬ responseMarker <:+: s ∧
      ∀ (st : AlpacaState) (pf : PromptFn) (lm : LM) (instr : Str) (inp : Option Str)
        (cfg : GenConfig), lm st.config (pf instr inp) cfg = oneMarkerOutput →
        generate st pf lm instr inp cfg = .ok s :=
  C5_response_extraction oneMarkerOutput (by decide)

/-- C10: when the delimiter occurs more than once — `i` the index of the
first occurrence, `j` the index of the first occurrence in the text that
follows it — `generate` returns the trimmed text strictly between the two
occurrences and drops everything from the second occurrence on. -/
theorem C10_between_first_and_second (output : Str) (i j : Nat)
    (h1 : responseMarker <+: output.drop i)
    (h2 : ∀ k, k < i → ¬ responseMarker <+: output.drop k)
    (h3 : responseMarker <+: (output.drop (i + responseMarker.length)).drop j)
    (h4 : ∀ k, k < j → ¬ responseMarker <+: (output.drop (i + responseMarker.length)).drop k) :
    extractResponse output =
      .ok (pyStrip ((output.drop (i + responseMarker.length)).take j)) ∧
    ∀ (st : AlpacaState) (pf : PromptFn) (lm : LM) (instr : Str) (inp : Option Str)
      (cfg : GenConfig), lm st.config (pf instr inp) cfg = output →
      generate st pf lm instr inp cfg =
        .ok (pyStrip ((output.drop (i + responseMarker.length)).take j)) := by
  have hfi : findSub responseMarker output = some i := findSub_eq_some_of_spec _ _ i h1 h2
  have hfj : findSub responseMarker (output.drop (i + responseMarker.length)) = some j :=
    findSub_eq_some_of_spec _ _ j h3 h4
  have he : extractResponse output =
      .ok (pyStrip ((output.drop (i + responseMarker.length)).take j)) := by
    rw [extractResponse_of_some output i hfi]
    simp [nextChunk, hfj]
  refine ⟨he, ?_⟩
  intro st pf lm instr inp cfg hlm
  unfold generate
  rw [hlm]
  exact he

/-- C10 witness: "A### Response: one ### Response: two" — first delimiter
at index 1, second at index 5 of the remaining text; the result is the
trimmed text "one" strictly between them, " two" is dropped. -/
theorem C10_witness :
    extractResponse twoMarkerOutput = .ok (String.toList "one") := by
  have h := (C10_between_first_and_second twoMarkerOutput 1 5 (by decide) (by decide)
    (by decide) (by decide)).1
  rw [h]
  decide

end VoiceChatbot
